import Mathlib

/-!
Shallow embedding of the risk-scoring and aggregation engine of the
aimcr-reviews repository (src/helper_functions.py, src/json_to_pdf.py,
src/streamlit_app.py), together with proofs settling the specification's
claims about it.

Conventions of the embedding: JSON integers become `Int`; a field a record
may lack becomes an `Option`; a Python function that can raise an uncaught
exception returns `Option` with `none` for the raise; Python dicts used as
insertion-ordered maps become association lists `List (String × _)`.
-/

/-- A check's score field as the aggregation code sees it: either a numeric
value (all scores the form produces are integers 1..5, so `Int` suffices and
Python's `int(score)` is the identity) or a present-but-non-numeric value,
for which the `isinstance(score, (int, float))` guard of the source fails. -/
inductive Score where
  | num (n : Int)
  | nonNum
deriving DecidableEq

/-- One check record of the list representation. `name = none` models a
record missing its name key (read as `check.get("name", "")`), `score = none`
one missing its score key. The notes field never takes part in aggregation
and is not modelled. -/
structure Check where
  name : Option String
  score : Option Score
deriving DecidableEq

/-- The two representations of an artifact's checks field that the code
handles: a dict keyed by question name (Streamlit format), or a list of
check records (original format). -/
inductive ChecksRepr where
  | dict (entries : List (String × Option Score))
  | list (cs : List Check)
deriving DecidableEq

/-- An artifact record. `name = none` models a record missing its name key;
`checks = none` one missing its checks key. -/
structure Artifact where
  name : Option String
  checks : Option ChecksRepr
deriving DecidableEq

/-- `score = check.get("score")` followed by the
`isinstance(score, (int, float))` guard and `int(score)`: the numeric value
of a score field, or `none` when it is missing or non-numeric. -/
def intScore : Option Score → Option Int
  | some (Score.num n) => some n
  | _ => none

/-- The numeric scores of a checks collection in iteration order: exactly the
values every aggregation loop of the source visits after its `isinstance`
guard, for either representation. -/
def scoresOf : ChecksRepr → List Int
  | ChecksRepr.dict es => es.filterMap (fun e => intScore e.2)
  | ChecksRepr.list cs => cs.filterMap (fun c => intScore c.score)

/-- Numeric scores of one artifact, reading the checks field as
`item.get("checks", [])`. -/
def artifactScores (a : Artifact) : List Int :=
  scoresOf (a.checks.getD (ChecksRepr.list []))

namespace helper_functions

/-- helper_functions.get_risk_color: the chained threshold test, kept in the
source's branch order. -/
def get_risk_color (score : Int) : String :=
  if 21 ≤ score then "red"
  else if 5 ≤ score then "red"
  else if 15 ≤ score then "orange"
  else if 10 ≤ score then "yellow"
  else "green"

/-- Python `len(checks)` for either representation. -/
def pyLen : ChecksRepr → Nat
  | ChecksRepr.dict es => es.length
  | ChecksRepr.list cs => cs.length

/-- Python `checks[i]` with an integer subscript: list indexing (out of range
raises IndexError, hence `none`), and a KeyError (`none`) on the dict
representation, whose keys are strings. -/
def pyIndex : ChecksRepr → Nat → Option Check
  | ChecksRepr.dict _, _ => none
  | ChecksRepr.list cs, i => cs[i]?

/-- Python `max` over a list, `none` (ValueError) on an empty one. -/
def pyMax : List Int → Option Int
  | [] => none
  | x :: xs => some (xs.foldl max x)

/-- helper_functions.calculate_section_risk. It subscripts
`artifacts[0]['checks']`, `artifact['checks'][i]` and `check['score']`
directly, so `none` models an uncaught exception: a KeyError from a missing
checks or score key, an IndexError from a short checks list, or the
TypeError that `max`/`sum` raise once a non-numeric score value is consumed
by the arithmetic. -/
def calculate_section_risk (artifacts : List Artifact) : Option (Int × List Int) :=
  match artifacts with
  | [] => some (0, [])
  | a0 :: _ => do
    let cs0 ← a0.checks
    let max_scores ← (List.range (pyLen cs0)).mapM (fun i => do
      let scores ← artifacts.mapM (fun a => do
        let cs ← a.checks
        let c ← pyIndex cs i
        intScore c.score)
      pyMax scores)
    pure (max_scores.sum, max_scores)

end helper_functions

namespace json_to_pdf

/-- json_to_pdf.calculate_total_risk: sum of the numeric scores of one
artifact's checks, for either representation; missing and non-numeric scores
are skipped. -/
def calculate_total_risk (checks : ChecksRepr) : Int :=
  (scoresOf checks).sum

/-- json_to_pdf.get_highest_score_in_section: `max_score` starts at 0 and is
folded with every numeric score of every item's checks. -/
def get_highest_score_in_section (items : List Artifact) : Int :=
  if items.isEmpty then 0
  else items.foldl (fun mx it => (artifactScores it).foldl max mx) 0

/-- json_to_pdf.get_risk_category: `risk_map.get(score, "Unknown")`. -/
def get_risk_category (score : Int) : String :=
  if score = 1 then "No Risk"
  else if score = 2 then "Low Risk"
  else if score = 3 then "Medium Risk"
  else if score = 4 then "High Risk"
  else if score = 5 then "Critical Risk"
  else "Unknown"

/-- One update of the `check_max_scores` dict of
calculate_section_total_score: a new name is appended (Python dicts keep
insertion order), an existing one is replaced by `max(old, score)`. -/
def updateMax : List (String × Int) → String → Int → List (String × Int)
  | [], k, v => [(k, v)]
  | p :: rest, k, v =>
    if p.1 = k then (p.1, max p.2 v) :: rest
    else p :: updateMax rest k v

/-- Processing of one check inside calculate_section_total_score's loops: a
missing or non-numeric score is skipped, a numeric one updates
`check_max_scores` under the check's name. -/
def stepCheck (m : List (String × Int)) (nm : String) (sc : Option Score) :
    List (String × Int) :=
  match intScore sc with
  | some n => updateMax m nm n
  | none => m

/-- The two per-representation loops of calculate_section_total_score; in the
list representation the key is `check.get("name", "")`. -/
def foldChecks (m : List (String × Int)) : ChecksRepr → List (String × Int)
  | ChecksRepr.dict es => es.foldl (fun acc e => stepCheck acc e.1 e.2) m
  | ChecksRepr.list cs => cs.foldl (fun acc c => stepCheck acc (c.name.getD "") c.score) m

/-- json_to_pdf.calculate_section_total_score: 0 for an empty item list,
otherwise the maximum per check name across all items, then the sum of
`check_max_scores.values()`. -/
def calculate_section_total_score (items : List Artifact) : Int :=
  if items.isEmpty then 0
  else
    ((items.foldl (fun m it => foldChecks m (it.checks.getD (ChecksRepr.list []))) []).map
        Prod.snd).sum

/-- The early-exit loop of calculate_section_totals deciding whether one item
holds a check whose numeric score equals `highest`. -/
def item_has_high_score (it : Artifact) (highest : Int) : Bool :=
  (artifactScores it).any (fun s => decide (s = highest))

/-- Python `str.strip()`: the string with whitespace removed from both
ends. -/
def pyStrip (s : String) : String :=
  String.mk (((s.data.dropWhile Char.isWhitespace).reverse.dropWhile
    Char.isWhitespace).reverse)

/-- `item.get("name", "Unnamed").strip() or "Unnamed"`. -/
def artifact_display_name (it : Artifact) : String :=
  let s := pyStrip (it.name.getD "Unnamed")
  if s = "" then "Unnamed" else s

/-- One section's entry of the `section_info` dict built by
json_to_pdf.calculate_section_totals. -/
structure SectionInfo where
  total : Int
  highest : Int
  category : String
  count : Nat
  pass_fail : String
  artifacts : List String
deriving DecidableEq

/-- The per-section body of json_to_pdf.calculate_section_totals. -/
def section_totals_one (items : List Artifact) : SectionInfo :=
  if items.isEmpty then
    { total := 0, highest := 0, category := "No Data", count := 0,
      pass_fail := "N/A", artifacts := [] }
  else
    let total_score := calculate_section_total_score items
    let highest_score := get_highest_score_in_section items
    { total := total_score,
      highest := highest_score,
      category := get_risk_category highest_score,
      count := items.length,
      pass_fail := if 21 ≤ total_score then "FAIL" else "PASS",
      artifacts := items.filterMap (fun it =>
        if item_has_high_score it highest_score then some (artifact_display_name it)
        else none) }

/-- The four artifact collections of the review document. -/
structure ReviewData where
  third_party_software : List Artifact
  source_code : List Artifact
  datasets_user_files : List Artifact
  models : List Artifact
deriving DecidableEq

/-- json_to_pdf.calculate_section_totals: the four section entries in the
source's display order. -/
def calculate_section_totals (d : ReviewData) : List SectionInfo :=
  [section_totals_one d.third_party_software,
   section_totals_one d.source_code,
   section_totals_one d.datasets_user_files,
   section_totals_one d.models]

/-- The cumulative score of create_cumulative_risk_box:
`max((info['highest'] for info in section_info.values()), default=0)`. -/
def cumulative_score (infos : List SectionInfo) : Int :=
  match infos.map SectionInfo.highest with
  | [] => 0
  | x :: xs => xs.foldl max x

/-- The failure scan of create_cumulative_risk_box: any section whose
pass_fail differs from N/A and equals FAIL. -/
def any_section_failed (infos : List SectionInfo) : Bool :=
  (infos.filter (fun i => decide (i.pass_fail ≠ "N/A"))).any
    (fun i => decide (i.pass_fail = "FAIL"))

/-- The cumulative verdict of create_cumulative_risk_box. -/
def cumulative_pass_fail (infos : List SectionInfo) : String :=
  if any_section_failed infos then "FAIL" else "PASS"

end json_to_pdf

namespace streamlit_app

/-- SECTION_CHECKS of streamlit_app.py for the third_party_software
category. -/
def third_party_software_checks : List String :=
  ["Project & Usage Alignment",
   "Prohibited Use Screening (LC 2.7)",
   "Restricted Entities Screening (LC 2.5)",
   "Source / Provenance",
   "License / Permissions",
   "Bundled Tools / Dependencies"]

/-- SECTION_CHECKS of streamlit_app.py for the source_code category. -/
def source_code_checks : List String :=
  ["Project & Usage Alignment",
   "Prohibited Use Screening (LC 2.7)",
   "Source / Provenance Provenance & Restricted Entities D5+M Affiliation Screeing (LC 2.5)",
   "License / Permissions",
   "Dependencies / Bundled Components",
   "Sample Inspection"]

/-- SECTION_CHECKS of streamlit_app.py for the datasets_user_files
category. -/
def datasets_user_files_checks : List String :=
  ["Project & Usage Alignment",
   "Prohibited Use Screening (LC 2.7)",
   "Restricted Entities Screening (LC 2.5)",
   "Prompts / Fine-tuning Scripts",
   "Sample Inspection",
   "Provenance",
   "License / Permissions"]

/-- SECTION_CHECKS of streamlit_app.py for the models category. -/
def models_checks : List String :=
  ["Project & Usage Alignment",
   "Prohibited Use Screening (LC 2.7)",
   "Source / Provenance Provenance & Restricted Entities D5+M Affiliation Screeing (LC 2.5)",
   "License / Permissions",
   "Training Data Documentation",
   "Customisation / Fine-tuning",
   "FLOPS Calculation",
   "Sample Inspection"]

/-- One entry of the Final-Review page's section scores list. -/
structure StSection where
  total_score : Int
  highest_score : Int
  pass_fail : String
deriving DecidableEq

/-- The per-section branch of the Final-Review summary for a section with
artifacts: it runs helper_functions.calculate_section_risk, takes
`max(max_scores) if max_scores else 1` as the highest individual score, and
applies the total ≥ 21 threshold for the verdict. `none` models an uncaught
exception escaping from calculate_section_risk. -/
def st_build_section (artifacts : List Artifact) : Option StSection :=
  match helper_functions.calculate_section_risk artifacts with
  | none => none
  | some (total_risk, max_scores) =>
    some { total_score := total_risk,
           highest_score :=
             match max_scores with
             | [] => 1
             | x :: xs => xs.foldl max x,
           pass_fail := if 21 ≤ total_risk then "FAIL" else "PASS" }

/-- The Final-Review loop over the four categories: only sections with
artifacts contribute an entry to the section scores list. -/
def st_section_scores_list : List (List Artifact) → Option (List StSection)
  | [] => some []
  | arts :: rest =>
    if arts.isEmpty then st_section_scores_list rest
    else do
      let s ← st_build_section arts
      let tail ← st_section_scores_list rest
      pure (s :: tail)

/-- The Final-Review cumulative score:
`max([s['highest_score'] for s in section_scores_list]) if section_scores_list else 1`. -/
def cumulative_risk_score (l : List StSection) : Int :=
  match l.map StSection.highest_score with
  | [] => 1
  | x :: xs => xs.foldl max x

end streamlit_app

/-- Well-formed check records, one per question of `qs`, question `q` scoring
`f q`. Used to state claims about structurally well-formed sections. -/
def mkCheckList (qs : List String) (f : String → Int) : List Check :=
  qs.map (fun q => { name := some q, score := some (Score.num (f q)) })

/-- The list representation of `mkCheckList`. -/
def mkChecks (qs : List String) (f : String → Int) : ChecksRepr :=
  ChecksRepr.list (mkCheckList qs f)

/-- A well-formed artifact named `nm` carrying exactly one check per question
of `qs`. -/
def mkArtifact (nm : String) (qs : List String) (f : String → Int) : Artifact :=
  { name := some nm, checks := some (mkChecks qs f) }

/-- A section of well-formed artifacts over the question list `qs`, one per
(name, score assignment) pair of `fs`. -/
def mkSection (qs : List String) (fs : List (String × (String → Int))) : List Artifact :=
  fs.map (fun p => mkArtifact p.1 qs p.2)

/-- The specification's per-question maximum over the score assignments of a
collection of artifacts (0 for an empty collection; the claims only use it on
non-empty ones). -/
def maxOver (fs : List (String → Int)) (q : String) : Int :=
  match fs with
  | [] => 0
  | f :: rest => rest.foldl (fun acc g => max acc (g q)) (f q)

/-- Keys of the `check_max_scores` association list. -/
def amKeys (m : List (String × Int)) : List String := m.map Prod.fst

/-- The list-representation loop body of calculate_section_total_score, named
so that proofs can speak about one iteration. `foldChecks m (list cs)` is by
definition `cs.foldl stepC m`. -/
def stepC (acc : List (String × Int)) (c : Check) : List (String × Int) :=
  json_to_pdf.stepCheck acc (c.name.getD "") c.score

/-! Concrete inputs used by witnesses and counterexamples. -/

/-- Six generic question names, the size of a typical category. -/
def qList6 : List String := ["Q1", "Q2", "Q3", "Q4", "Q5", "Q6"]

/-- A single-artifact section over six questions, every check scored 4
(total 24). -/
def exAllFour : List Artifact := mkSection qList6 [("pkgA", fun _ => 4)]

/-- A single-artifact section over six questions, every check scored 3
(total 18). -/
def exAllThree : List Artifact := mkSection qList6 [("pkgA", fun _ => 3)]

/-- A review document whose only data is `exAllFour` in the third-party
section: it fails on total 24 ≥ 21 while its highest individual score is
only 4. -/
def exC6data : json_to_pdf.ReviewData :=
  { third_party_software := exAllFour, source_code := [],
    datasets_user_files := [], models := [] }

/-- Three artifacts scoring 3, 5 and 5 on a single shared question. -/
def exThreeFiveFive : List Artifact :=
  mkSection ["Q"] [("A", fun _ => 3), ("B", fun _ => 5), ("C", fun _ => 5)]

/-- A well-formed two-question section (scores 3 and 4, total 7). -/
def exGoodSection : List Artifact :=
  mkSection ["Q1", "Q2"] [("good", fun q => if q = "Q1" then 3 else 4)]

/-- An artifact carrying all six canonical third-party checks at score 1,
plus one check whose name is outside the canonical list, scored 5. -/
def exWithLegacy : Artifact :=
  { name := some "pkgX",
    checks := some (ChecksRepr.list
      (mkCheckList streamlit_app.third_party_software_checks (fun _ => 1)
        ++ [{ name := some "Legacy Question", score := some (Score.num 5) }])) }

/-- The same artifact without the non-canonical check. -/
def exWithoutLegacy : Artifact :=
  mkArtifact "pkgX" streamlit_app.third_party_software_checks (fun _ => 1)

/-- A non-empty section in which no check carries a numeric score: one check
misses its score key and the other holds a non-numeric value. -/
def exNoNumeric : List Artifact :=
  [{ name := some "A",
     checks := some (ChecksRepr.list
       [{ name := some "Q1", score := none },
        { name := some "Q2", score := some Score.nonNum }]) }]

/-- An artifact record with no checks key at all. -/
def exMissingChecks : Artifact := { name := some "Broken", checks := none }

/-! Helper lemmas about the `check_max_scores` association list. -/

lemma amKeys_append (m n : List (String × Int)) :
    amKeys (m ++ n) = amKeys m ++ amKeys n := by
  simp [amKeys]

lemma updateMax_of_not_mem (m : List (String × Int)) (k : String) (v : Int)
    (h : k ∉ amKeys m) :
    json_to_pdf.updateMax m k v = m ++ [(k, v)] := by
  induction m with
  | nil => rfl
  | cons p rest ih =>
    have h1 : ¬p.1 = k := by
      intro he
      exact h (by simp [amKeys, he])
    have h2 : k ∉ amKeys rest := by
      intro hm
      exact h (by simp [amKeys] at hm ⊢; exact Or.inr hm)
    simp [json_to_pdf.updateMax, h1, ih h2]

lemma updateMax_append (pre m : List (String × Int)) (k : String) (v : Int)
    (h : k ∉ amKeys pre) :
    json_to_pdf.updateMax (pre ++ m) k v = pre ++ json_to_pdf.updateMax m k v := by
  induction pre with
  | nil => rfl
  | cons p rest ih =>
    have h1 : ¬p.1 = k := by
      intro he
      exact h (by simp [amKeys, he])
    have h2 : k ∉ amKeys rest := by
      intro hm
      exact h (by simp [amKeys] at hm ⊢; exact Or.inr hm)
    simp [json_to_pdf.updateMax, h1, ih h2]


/-! Folding a well-formed check list into `check_max_scores`. -/

lemma foldChecks_list_eq (m : List (String × Int)) (cs : List Check) :
    json_to_pdf.foldChecks m (ChecksRepr.list cs) = cs.foldl stepC m := rfl

lemma stepC_mk (pre : List (String × Int)) (q : String) (v : Int) :
    stepC pre { name := some q, score := some (Score.num v) }
      = json_to_pdf.updateMax pre q v := rfl

lemma mkCheckList_cons (q : String) (rest : List String) (f : String → Int) :
    mkCheckList (q :: rest) f =
      { name := some q, score := some (Score.num (f q)) } :: mkCheckList rest f := rfl

lemma foldl_mkCheckList_fresh (qs : List String) (f : String → Int)
    (pre : List (String × Int)) (hnd : qs.Nodup)
    (hdis : ∀ q ∈ qs, q ∉ amKeys pre) :
    (mkCheckList qs f).foldl stepC pre = pre ++ qs.map (fun q => (q, f q)) := by
  induction qs generalizing pre with
  | nil => simp [mkCheckList]
  | cons q rest ih =>
    have hq : q ∉ amKeys pre := hdis q (List.mem_cons_self _ _)
    rw [mkCheckList_cons, List.foldl_cons, stepC_mk]
    rw [updateMax_of_not_mem pre q (f q) hq]
    rw [ih (pre ++ [(q, f q)]) (List.Nodup.of_cons hnd) ?_]
    · simp
    · intro x hx
      rw [amKeys_append, List.mem_append]
      rintro (hx1 | hx2)
      · exact hdis x (List.mem_cons_of_mem _ hx) hx1
      · have hxq : x = q := by simpa [amKeys] using hx2
        subst hxq
        exact (List.nodup_cons.mp hnd).1 hx

lemma foldl_mkCheckList_update (qs : List String) (f g : String → Int)
    (pre : List (String × Int)) (hnd : qs.Nodup)
    (hdis : ∀ q ∈ qs, q ∉ amKeys pre) :
    (mkCheckList qs f).foldl stepC (pre ++ qs.map (fun q => (q, g q)))
      = pre ++ qs.map (fun q => (q, max (g q) (f q))) := by
  induction qs generalizing pre with
  | nil => simp [mkCheckList]
  | cons q rest ih =>
    have hq : q ∉ amKeys pre := hdis q (List.mem_cons_self _ _)
    rw [mkCheckList_cons, List.foldl_cons, List.map_cons, stepC_mk]
    rw [updateMax_append pre _ q (f q) hq]
    have hhead : json_to_pdf.updateMax ((q, g q) :: rest.map (fun x => (x, g x))) q (f q)
        = (q, max (g q) (f q)) :: rest.map (fun x => (x, g x)) := by
      simp [json_to_pdf.updateMax]
    rw [hhead]
    rw [show pre ++ (q, max (g q) (f q)) :: rest.map (fun x => (x, g x))
        = (pre ++ [(q, max (g q) (f q))]) ++ rest.map (fun x => (x, g x)) from by simp]
    rw [ih (pre ++ [(q, max (g q) (f q))]) (List.Nodup.of_cons hnd) ?_]
    · simp
    · intro x hx
      rw [amKeys_append, List.mem_append]
      rintro (hx1 | hx2)
      · exact hdis x (List.mem_cons_of_mem _ hx) hx1
      · have hxq : x = q := by simpa [amKeys] using hx2
        subst hxq
        exact (List.nodup_cons.mp hnd).1 hx

lemma foldl_section_update (qs : List String) (hnd : qs.Nodup)
    (fs : List (String → Int)) (g : String → Int) :
    fs.foldl (fun m f => json_to_pdf.foldChecks m (mkChecks qs f))
        (qs.map (fun q => (q, g q)))
      = qs.map (fun q => (q, fs.foldl (fun acc f => max acc (f q)) (g q))) := by
  induction fs generalizing g with
  | nil => simp
  | cons f rest ih =>
    rw [List.foldl_cons]
    have h1 : json_to_pdf.foldChecks (qs.map (fun q => (q, g q))) (mkChecks qs f)
        = qs.map (fun q => (q, max (g q) (f q))) := by
      rw [mkChecks, foldChecks_list_eq]
      have h2 := foldl_mkCheckList_update qs f g [] hnd (by intro q hq; simp [amKeys])
      simpa using h2
    rw [h1, ih]
    simp [List.foldl_cons]

lemma total_mkSection (qs : List String) (hnd : qs.Nodup)
    (p : String × (String → Int)) (rest : List (String × (String → Int))) :
    json_to_pdf.calculate_section_total_score (mkSection qs (p :: rest))
      = (qs.map (fun q => maxOver ((p :: rest).map Prod.snd) q)).sum := by
  have hred : json_to_pdf.calculate_section_total_score (mkSection qs (p :: rest))
      = (((mkSection qs (p :: rest)).foldl
          (fun m it => json_to_pdf.foldChecks m (it.checks.getD (ChecksRepr.list []))) []).map
          Prod.snd).sum := rfl
  rw [hred]
  rw [show mkSection qs (p :: rest) = mkArtifact p.1 qs p.2 :: mkSection qs rest from rfl]
  rw [List.foldl_cons]
  have h0 : json_to_pdf.foldChecks []
      ((mkArtifact p.1 qs p.2).checks.getD (ChecksRepr.list []))
      = qs.map (fun q => (q, p.2 q)) := by
    rw [show (mkArtifact p.1 qs p.2).checks.getD (ChecksRepr.list [])
        = ChecksRepr.list (mkCheckList qs p.2) from rfl]
    rw [foldChecks_list_eq]
    have h1 := foldl_mkCheckList_fresh qs p.2 [] hnd (by intro q hq; simp [amKeys])
    simpa using h1
  rw [h0]
  have hmapfold : (mkSection qs rest).foldl
      (fun m it => json_to_pdf.foldChecks m (it.checks.getD (ChecksRepr.list [])))
      (qs.map (fun q => (q, p.2 q)))
      = (rest.map Prod.snd).foldl (fun m f => json_to_pdf.foldChecks m (mkChecks qs f))
        (qs.map (fun q => (q, p.2 q))) := by
    rw [mkSection, List.foldl_map, List.foldl_map]
    rfl
  rw [hmapfold, foldl_section_update qs hnd (rest.map Prod.snd) p.2]
  simp [maxOver, List.map_map, Function.comp_def]

/-! Helper lemmas about scores, maxima and the section record. -/

lemma scoresOf_mkChecks (qs : List String) (f : String → Int) :
    scoresOf (mkChecks qs f) = qs.map f := by
  induction qs with
  | nil => rfl
  | cons q rest ih =>
    simp [mkChecks, mkCheckList, scoresOf, intScore] at ih ⊢
    exact ih

lemma artifactScores_mkArtifact (nm : String) (qs : List String) (f : String → Int) :
    artifactScores (mkArtifact nm qs f) = qs.map f := by
  rw [show artifactScores (mkArtifact nm qs f) = scoresOf (mkChecks qs f) from rfl]
  exact scoresOf_mkChecks qs f

lemma foldl_max_const_absorb {α : Type} (l : List α) (m c : Int) :
    (l.map (fun _ => c)).foldl max (max m c) = max m c := by
  induction l generalizing m with
  | nil => rfl
  | cons a t ih =>
    simp only [List.map_cons, List.foldl_cons]
    rw [max_assoc, max_self]
    exact ih m

lemma foldl_max_map_const {α : Type} (l : List α) (hl : l ≠ []) (m c : Int) :
    (l.map (fun _ => c)).foldl max m = max m c := by
  cases l with
  | nil => exact absurd rfl hl
  | cons a t =>
    simp only [List.map_cons, List.foldl_cons]
    exact foldl_max_const_absorb t m c

lemma sum_map_const_int {α : Type} (l : List α) (c : Int) :
    (l.map (fun _ => c)).sum = c * l.length := by
  induction l with
  | nil => simp
  | cons a t ih =>
    simp only [List.map_cons, List.sum_cons, List.length_cons, ih]
    push_cast
    ring

lemma any_eq_decide_mem (l : List Int) (s : Int) :
    (l.any fun x => decide (x = s)) = decide (s ∈ l) := by
  induction l with
  | nil => simp
  | cons a t ih =>
    rw [List.any_cons, ih]
    by_cases h : a = s
    · subst h
      simp
    · have h2 : ¬s = a := fun he => h he.symm
      simp [h, h2]

lemma filterMap_ite_eq_map_filter {α β : Type} (p : α → Bool) (g : α → β)
    (l : List α) :
    l.filterMap (fun a => if p a then some (g a) else none) = (l.filter p).map g := by
  induction l with
  | nil => rfl
  | cons a t ih =>
    by_cases h : p a
    · simp [List.filterMap_cons, List.filter_cons, h, ih]
    · simp [List.filterMap_cons, List.filter_cons, h, ih]

lemma section_totals_one_cons (a : Artifact) (t : List Artifact) :
    json_to_pdf.section_totals_one (a :: t) =
      { total := json_to_pdf.calculate_section_total_score (a :: t),
        highest := json_to_pdf.get_highest_score_in_section (a :: t),
        category := json_to_pdf.get_risk_category
          (json_to_pdf.get_highest_score_in_section (a :: t)),
        count := (a :: t).length,
        pass_fail :=
          if 21 ≤ json_to_pdf.calculate_section_total_score (a :: t) then "FAIL"
          else "PASS",
        artifacts := (a :: t).filterMap (fun it =>
          if json_to_pdf.item_has_high_score it
              (json_to_pdf.get_highest_score_in_section (a :: t)) then
            some (json_to_pdf.artifact_display_name it)
          else none) } := rfl

lemma exists_cons_of_ne_nil {α : Type} (l : List α) (h : l ≠ []) :
    ∃ a t, l = a :: t := by
  cases l with
  | nil => exact absurd rfl h
  | cons a t => exact ⟨a, t, rfl⟩

/-! Malformed checks are inert for the PDF-side aggregation. -/

lemma stepCheck_none (m : List (String × Int)) (nm : String) (sc : Option Score)
    (h : intScore sc = none) : json_to_pdf.stepCheck m nm sc = m := by
  unfold json_to_pdf.stepCheck
  rw [h]

lemma filterMap_nil_all_none {α β : Type} (f : α → Option β) (l : List α)
    (h : l.filterMap f = []) : ∀ a ∈ l, f a = none := by
  induction l with
  | nil =>
    intro a ha
    cases ha
  | cons a t ih =>
    intro b hb
    rw [List.filterMap_cons] at h
    cases hfa : f a with
    | some v =>
      rw [hfa] at h
      exact absurd h (List.cons_ne_nil _ _)
    | none =>
      rw [hfa] at h
      rcases List.mem_cons.mp hb with hba | hbt
      · rw [hba]
        exact hfa
      · exact ih h b hbt

lemma foldChecks_inert (m : List (String × Int)) (cr : ChecksRepr)
    (h : scoresOf cr = []) : json_to_pdf.foldChecks m cr = m := by
  cases cr with
  | dict es =>
    have hfm : es.filterMap (fun e => intScore e.2) = [] := h
    have h2 : ∀ e ∈ es, intScore e.2 = none :=
      filterMap_nil_all_none (fun e => intScore e.2) es hfm
    clear h hfm
    induction es generalizing m with
    | nil => rfl
    | cons e t ih =>
      have he : intScore e.2 = none := h2 e (List.mem_cons_self _ _)
      have h3 : ∀ x ∈ t, intScore x.2 = none :=
        fun x hx => h2 x (List.mem_cons_of_mem _ hx)
      calc json_to_pdf.foldChecks m (ChecksRepr.dict (e :: t))
          = json_to_pdf.foldChecks (json_to_pdf.stepCheck m e.1 e.2)
              (ChecksRepr.dict t) := rfl
        _ = json_to_pdf.foldChecks m (ChecksRepr.dict t) := by
              rw [stepCheck_none m e.1 e.2 he]
        _ = m := ih m h3
  | list cs =>
    have hfm : cs.filterMap (fun c => intScore c.score) = [] := h
    have h2 : ∀ c ∈ cs, intScore c.score = none :=
      filterMap_nil_all_none (fun c => intScore c.score) cs hfm
    clear h hfm
    induction cs generalizing m with
    | nil => rfl
    | cons c t ih =>
      have hc : intScore c.score = none := h2 c (List.mem_cons_self _ _)
      have h3 : ∀ x ∈ t, intScore x.score = none :=
        fun x hx => h2 x (List.mem_cons_of_mem _ hx)
      calc json_to_pdf.foldChecks m (ChecksRepr.list (c :: t))
          = json_to_pdf.foldChecks (json_to_pdf.stepCheck m (c.name.getD "") c.score)
              (ChecksRepr.list t) := rfl
        _ = json_to_pdf.foldChecks m (ChecksRepr.list t) := by
              rw [stepCheck_none m (c.name.getD "") c.score hc]
        _ = m := ih m h3

lemma total_snoc_inert (items : List Artifact) (a : Artifact)
    (h : scoresOf (a.checks.getD (ChecksRepr.list [])) = []) :
    json_to_pdf.calculate_section_total_score (items ++ [a])
      = json_to_pdf.calculate_section_total_score items := by
  cases items with
  | nil =>
    rw [List.nil_append]
    calc json_to_pdf.calculate_section_total_score [a]
        = ((json_to_pdf.foldChecks [] (a.checks.getD (ChecksRepr.list []))).map
            Prod.snd).sum := rfl
      _ = (([] : List (String × Int)).map Prod.snd).sum := by
            rw [foldChecks_inert [] _ h]
      _ = json_to_pdf.calculate_section_total_score [] := rfl
  | cons b t =>
    have h1 : ((b :: t) ++ [a]).foldl
        (fun m it => json_to_pdf.foldChecks m (it.checks.getD (ChecksRepr.list []))) []
        = (b :: t).foldl
          (fun m it => json_to_pdf.foldChecks m (it.checks.getD (ChecksRepr.list []))) [] := by
      rw [List.foldl_append]
      exact foldChecks_inert _ _ h
    calc json_to_pdf.calculate_section_total_score ((b :: t) ++ [a])
        = ((((b :: t) ++ [a]).foldl
            (fun m it => json_to_pdf.foldChecks m (it.checks.getD (ChecksRepr.list [])))
            []).map Prod.snd).sum := rfl
      _ = (((b :: t).foldl
            (fun m it => json_to_pdf.foldChecks m (it.checks.getD (ChecksRepr.list [])))
            []).map Prod.snd).sum := by rw [h1]
      _ = json_to_pdf.calculate_section_total_score (b :: t) := rfl

lemma highest_snoc_inert (items : List Artifact) (a : Artifact)
    (h : artifactScores a = []) :
    json_to_pdf.get_highest_score_in_section (items ++ [a])
      = json_to_pdf.get_highest_score_in_section items := by
  cases items with
  | nil =>
    rw [List.nil_append]
    calc json_to_pdf.get_highest_score_in_section [a]
        = (artifactScores a).foldl max 0 := rfl
      _ = (([] : List Int)).foldl max 0 := by rw [h]
      _ = json_to_pdf.get_highest_score_in_section [] := rfl
  | cons b t =>
    have h1 : ((b :: t) ++ [a]).foldl
        (fun mx it => (artifactScores it).foldl max mx) 0
        = (b :: t).foldl (fun mx it => (artifactScores it).foldl max mx) 0 := by
      rw [List.foldl_append]
      rw [show List.foldl (fun mx it => (artifactScores it).foldl max mx)
          ((b :: t).foldl (fun mx it => (artifactScores it).foldl max mx) 0) [a]
          = (artifactScores a).foldl max
            ((b :: t).foldl (fun mx it => (artifactScores it).foldl max mx) 0) from rfl]
      rw [h]
      rfl
    calc json_to_pdf.get_highest_score_in_section ((b :: t) ++ [a])
        = ((b :: t) ++ [a]).foldl (fun mx it => (artifactScores it).foldl max mx) 0 := rfl
      _ = (b :: t).foldl (fun mx it => (artifactScores it).foldl max mx) 0 := by rw [h1]
      _ = json_to_pdf.get_highest_score_in_section (b :: t) := rfl

/-! The cumulative failure scan. -/

lemma any_section_failed_iff (infos : List json_to_pdf.SectionInfo) :
    json_to_pdf.any_section_failed infos = true ↔
      ∃ i ∈ infos, i.pass_fail = "FAIL" := by
  unfold json_to_pdf.any_section_failed
  rw [List.any_eq_true]
  constructor
  · rintro ⟨i, hi, hdec⟩
    rw [List.mem_filter] at hi
    exact ⟨i, hi.1, of_decide_eq_true hdec⟩
  · rintro ⟨i, hi, hpf⟩
    refine ⟨i, List.mem_filter.mpr ⟨hi, ?_⟩, ?_⟩
    · rw [hpf]
      decide
    · rw [hpf]
      decide

/-! Field-level reductions of the non-empty section record. -/

lemma section_total_cons (a : Artifact) (t : List Artifact) :
    (json_to_pdf.section_totals_one (a :: t)).total
      = json_to_pdf.calculate_section_total_score (a :: t) := rfl

lemma section_highest_cons (a : Artifact) (t : List Artifact) :
    (json_to_pdf.section_totals_one (a :: t)).highest
      = json_to_pdf.get_highest_score_in_section (a :: t) := rfl

lemma section_category_cons (a : Artifact) (t : List Artifact) :
    (json_to_pdf.section_totals_one (a :: t)).category
      = json_to_pdf.get_risk_category
          (json_to_pdf.get_highest_score_in_section (a :: t)) := rfl

lemma section_count_cons (a : Artifact) (t : List Artifact) :
    (json_to_pdf.section_totals_one (a :: t)).count = (a :: t).length := rfl

lemma section_pass_fail_cons (a : Artifact) (t : List Artifact) :
    (json_to_pdf.section_totals_one (a :: t)).pass_fail
      = (if 21 ≤ json_to_pdf.calculate_section_total_score (a :: t) then "FAIL"
         else "PASS") := rfl

lemma section_artifacts_cons (a : Artifact) (t : List Artifact) :
    (json_to_pdf.section_totals_one (a :: t)).artifacts
      = (a :: t).filterMap (fun it =>
          if json_to_pdf.item_has_high_score it
              (json_to_pdf.get_highest_score_in_section (a :: t)) then
            some (json_to_pdf.artifact_display_name it)
          else none) := rfl

/-! Claim theorems. -/

/-- C7: for every category with zero artifacts, the section result is exactly
total_score 0, highest_score 0, risk_category No Data, pass_fail N/A and no
contributing artifacts; the Streamlit helper likewise returns total 0 with an
empty per-question maxima list. -/
theorem claim_C7_empty_section :
    json_to_pdf.section_totals_one [] =
      { total := 0, highest := 0, category := "No Data", count := 0,
        pass_fail := "N/A", artifacts := [] }
    ∧ helper_functions.calculate_section_risk [] = some (0, []) :=
  ⟨rfl, rfl⟩

/-- C9: helper_functions.get_risk_color returns red for every score ≥ 5, and
its orange (≥ 15) and yellow (≥ 10) branches are unreachable because the
score ≥ 5 branch is tested first, so those colors are never produced. -/
theorem claim_C9_risk_color (s : Int) (h : 5 ≤ s) :
    helper_functions.get_risk_color s = "red"
    ∧ (∀ t : Int, helper_functions.get_risk_color t ≠ "orange")
    ∧ (∀ t : Int, helper_functions.get_risk_color t ≠ "yellow") := by
  refine ⟨?_, ?_, ?_⟩
  · unfold helper_functions.get_risk_color
    by_cases h1 : 21 ≤ s
    · rw [if_pos h1]
    · rw [if_neg h1, if_pos h]
  · intro t
    unfold helper_functions.get_risk_color
    split_ifs with h1 h2 h3 h4
    · decide
    · decide
    · exact absurd h3 (by omega)
    · decide
    · decide
  · intro t
    unfold helper_functions.get_risk_color
    split_ifs with h1 h2 h3 h4
    · decide
    · decide
    · decide
    · exact absurd h4 (by omega)
    · decide

/-- Witness for C9 at the concrete score 15: the claim's unreachable orange
tier would fire here, yet the color is red. -/
theorem claim_C9_witness : helper_functions.get_risk_color 15 = "red" :=
  (claim_C9_risk_color 15 (by decide)).1

/-- C5: for every section with at least one artifact, pass_fail is FAIL if
and only if the section's total_score is at least 21 and PASS otherwise, in
both the PDF generator's calculate_section_totals and the Streamlit
Final-Review summary. -/
theorem claim_C5_pass_fail_threshold (items : List Artifact) (h : items ≠ []) :
    ((json_to_pdf.section_totals_one items).pass_fail = "FAIL"
      ↔ 21 ≤ json_to_pdf.calculate_section_total_score items)
    ∧ ((json_to_pdf.section_totals_one items).pass_fail = "PASS"
      ↔ json_to_pdf.calculate_section_total_score items < 21)
    ∧ (∀ st : streamlit_app.StSection,
        streamlit_app.st_build_section items = some st →
        ((st.pass_fail = "FAIL" ↔ 21 ≤ st.total_score)
          ∧ (st.pass_fail = "PASS" ↔ st.total_score < 21))) := by
  obtain ⟨a, t, rfl⟩ := exists_cons_of_ne_nil items h
  refine ⟨?_, ?_, ?_⟩
  · rw [section_pass_fail_cons]
    split_ifs with hc
    · exact iff_of_true rfl hc
    · exact iff_of_false (by decide) hc
  · rw [section_pass_fail_cons]
    split_ifs with hc
    · exact iff_of_false (by decide) (by omega)
    · exact iff_of_true rfl (by omega)
  · intro st hst
    unfold streamlit_app.st_build_section at hst
    cases hcr : helper_functions.calculate_section_risk (a :: t) with
    | none =>
      rw [hcr] at hst
      exact absurd hst (by simp)
    | some pr =>
      obtain ⟨total_risk, max_scores⟩ := pr
      rw [hcr] at hst
      have hst2 := Option.some.inj hst
      rw [← hst2]
      refine ⟨?_, ?_⟩
      · show (if 21 ≤ total_risk then "FAIL" else "PASS") = "FAIL" ↔ 21 ≤ total_risk
        split_ifs with hc
        · exact iff_of_true rfl hc
        · exact iff_of_false (by decide) hc
      · show (if 21 ≤ total_risk then "FAIL" else "PASS") = "PASS" ↔ total_risk < 21
        split_ifs with hc
        · exact iff_of_false (by decide) (by omega)
        · exact iff_of_true rfl (by omega)

/-- Witness for C5, the specification's P3 scenario: six questions all
scored 4 give total 24 ≥ 21 hence FAIL; all scored 3 give total 18 < 21
hence PASS. -/
theorem claim_C5_witness :
    (json_to_pdf.section_totals_one exAllFour).pass_fail = "FAIL"
    ∧ (json_to_pdf.section_totals_one exAllThree).pass_fail = "PASS" :=
  ⟨(claim_C5_pass_fail_threshold exAllFour (by decide)).1.mpr (by decide),
   (claim_C5_pass_fail_threshold exAllThree (by decide)).2.1.mpr (by decide)⟩

/-- C6: the cumulative verdict is FAIL exactly when at least one section's
pass_fail is FAIL, and PASS otherwise, independently of the cumulative score:
on a concrete document whose only section fails with total 24 while its
highest individual score is merely 4, the cumulative verdict is FAIL even
though the cumulative score is 4. -/
theorem claim_C6_cumulative_or (infos : List json_to_pdf.SectionInfo) :
    (json_to_pdf.cumulative_pass_fail infos = "FAIL"
      ↔ ∃ i ∈ infos, i.pass_fail = "FAIL")
    ∧ (json_to_pdf.cumulative_pass_fail infos = "PASS"
      ↔ ∀ i ∈ infos, i.pass_fail ≠ "FAIL")
    ∧ (json_to_pdf.cumulative_pass_fail
        (json_to_pdf.calculate_section_totals exC6data) = "FAIL"
      ∧ json_to_pdf.cumulative_score
        (json_to_pdf.calculate_section_totals exC6data) = 4) := by
  refine ⟨?_, ?_, by decide, by decide⟩
  · unfold json_to_pdf.cumulative_pass_fail
    split_ifs with hb
    · exact iff_of_true rfl ((any_section_failed_iff infos).mp hb)
    · refine iff_of_false (by decide) ?_
      intro hex
      exact hb ((any_section_failed_iff infos).mpr hex)
  · unfold json_to_pdf.cumulative_pass_fail
    split_ifs with hb
    · refine iff_of_false (by decide) ?_
      intro hall
      obtain ⟨i, hi, hpf⟩ := (any_section_failed_iff infos).mp hb
      exact hall i hi hpf
    · refine iff_of_true rfl ?_
      intro i hi hpf
      exact hb ((any_section_failed_iff infos).mpr ⟨i, hi, hpf⟩)

/-- C1: for every non-empty collection of well-formed artifacts over a
category's question list (one check per question, no duplicate questions),
total_score equals the sum over the question names of the maximum score among
all artifacts' check with that name; in particular two artifacts scoring all
2 and all 4 over N questions yield total_score 4 N and highest_score 4. -/
theorem claim_C1_max_per_question (qs : List String) (hnd : qs.Nodup)
    (hqs : qs ≠ []) (fs : List (String × (String → Int))) (hfs : fs ≠ []) :
    json_to_pdf.calculate_section_total_score (mkSection qs fs)
      = (qs.map (fun q => maxOver (fs.map Prod.snd) q)).sum
    ∧ json_to_pdf.calculate_section_total_score
        (mkSection qs [("A", fun _ => 2), ("B", fun _ => 4)])
      = 4 * (qs.length : Int)
    ∧ json_to_pdf.get_highest_score_in_section
        (mkSection qs [("A", fun _ => 2), ("B", fun _ => 4)]) = 4 := by
  obtain ⟨p, rest, rfl⟩ := exists_cons_of_ne_nil fs hfs
  refine ⟨total_mkSection qs hnd p rest, ?_, ?_⟩
  · rw [total_mkSection qs hnd ("A", fun _ => 2) [("B", fun _ => 4)]]
    have hm : ∀ q : String,
        maxOver ([("A", fun _ => (2 : Int)), ("B", fun _ => 4)].map Prod.snd) q
          = 4 := by
      intro q
      rfl
    have hmap : qs.map (fun q =>
        maxOver ([("A", fun _ => (2 : Int)), ("B", fun _ => 4)].map Prod.snd) q)
        = qs.map (fun _ => (4 : Int)) := by
      simp only [hm]
    rw [hmap, sum_map_const_int]
  · have h1 : json_to_pdf.get_highest_score_in_section
        (mkSection qs [("A", fun _ => (2 : Int)), ("B", fun _ => 4)])
        = (artifactScores (mkArtifact "B" qs (fun _ => 4))).foldl max
            ((artifactScores (mkArtifact "A" qs (fun _ => 2))).foldl max 0) := rfl
    rw [h1, artifactScores_mkArtifact, artifactScores_mkArtifact]
    rw [foldl_max_map_const qs hqs 0 2]
    rw [foldl_max_map_const qs hqs (max 0 2) 4]
    decide

/-- Witness for C1 on the real third-party question list (six questions):
artifacts all-2 and all-4 give total_score 24 = 4 times 6 and
highest_score 4. -/
theorem claim_C1_witness :
    json_to_pdf.calculate_section_total_score
      (mkSection streamlit_app.third_party_software_checks
        [("A", fun _ => 2), ("B", fun _ => 4)]) = 24
    ∧ json_to_pdf.get_highest_score_in_section
      (mkSection streamlit_app.third_party_software_checks
        [("A", fun _ => 2), ("B", fun _ => 4)]) = 4 := by
  have h := claim_C1_max_per_question streamlit_app.third_party_software_checks
    (by decide) (by decide) [("A", fun _ => 2), ("B", fun _ => 4)]
    (List.cons_ne_nil _ _)
  exact ⟨h.2.1.trans (by decide), h.2.2⟩

/-- C3 counterexample: an artifact carrying the six canonical third-party
checks at score 1 plus a check named Legacy Question (not in the canonical
list) scored 5 yields total_score 11, not the 6 that ignoring the
non-canonical check would give — the extra check does contribute to
total_score. Its presence is indeed not an error. -/
theorem claim_C3_counterexample :
    "Legacy Question" ∉ streamlit_app.third_party_software_checks
    ∧ json_to_pdf.calculate_section_total_score [exWithLegacy] = 11
    ∧ json_to_pdf.calculate_section_total_score [exWithoutLegacy] = 6 :=
  ⟨by decide, by decide, by decide⟩

/-- C3 amended: a check whose name is outside the question list is not an
error, but it is not ignored either: aggregation is keyed by the names
present in the data, so the extra check contributes its own per-name maximum
to total_score (here, exactly its score `v` on top of the well-formed
sum). -/
theorem claim_C3_amended (qs : List String) (hnd : qs.Nodup) (x : String)
    (hx : x ∉ qs) (nm : String) (f : String → Int) (v : Int) :
    json_to_pdf.calculate_section_total_score
      [{ name := some nm,
         checks := some (ChecksRepr.list (mkCheckList qs f
           ++ [{ name := some x, score := some (Score.num v) }])) }]
      = (qs.map f).sum + v := by
  have hkeys : amKeys (qs.map (fun q => (q, f q))) = qs := by
    simp [amKeys, List.map_map, Function.comp_def]
  have hfold : json_to_pdf.foldChecks []
      (ChecksRepr.list (mkCheckList qs f
        ++ [{ name := some x, score := some (Score.num v) }]))
      = qs.map (fun q => (q, f q)) ++ [(x, v)] := by
    rw [foldChecks_list_eq, List.foldl_append]
    rw [foldl_mkCheckList_fresh qs f [] hnd (by intro q hq; simp [amKeys])]
    rw [show ([] : List (String × Int)) ++ qs.map (fun q => (q, f q))
        = qs.map (fun q => (q, f q)) from List.nil_append _]
    rw [List.foldl_cons, List.foldl_nil, stepC_mk]
    rw [updateMax_of_not_mem _ x v (by rw [hkeys]; exact hx)]
  have hred : json_to_pdf.calculate_section_total_score
      [{ name := some nm,
         checks := some (ChecksRepr.list (mkCheckList qs f
           ++ [{ name := some x, score := some (Score.num v) }])) }]
      = ((json_to_pdf.foldChecks []
          (ChecksRepr.list (mkCheckList qs f
            ++ [{ name := some x, score := some (Score.num v) }]))).map
          Prod.snd).sum := rfl
  rw [hred, hfold]
  simp [List.map_append, List.map_map, Function.comp_def]

/-- Witness for the amended C3: two canonical questions at score 1 plus a
non-canonical Legacy check scored 5 give total 2 + 5 = 7. -/
theorem claim_C3_witness :
    json_to_pdf.calculate_section_total_score
      [{ name := some "pkgX",
         checks := some (ChecksRepr.list (mkCheckList ["Q1", "Q2"] (fun _ => 1)
           ++ [{ name := some "Legacy", score := some (Score.num 5) }])) }]
      = 7 := by
  have h := claim_C3_amended ["Q1", "Q2"] (by decide) "Legacy" (by decide)
    "pkgX" (fun _ => 1) 5
  exact h.trans (by decide)

/-- C2 counterexample: on an artifact record missing its checks key, the
Streamlit aggregator helper_functions.calculate_section_risk subscripts
`artifacts[0]['checks']` and raises a KeyError (modelled as `none`) instead
of treating the artifact as absent and producing a section result. -/
theorem claim_C2_counterexample :
    helper_functions.calculate_section_risk [exMissingChecks] = none := rfl

/-- C2 amended: the PDF-side aggregation never raises and treats malformed
input as absent — appending an artifact missing its checks key, or one whose
only check misses its score or holds a non-numeric score, changes neither
total_score nor highest_score, and a malformed check adds nothing to an
artifact's total risk; helper_functions.calculate_section_risk, however,
raises on such input (see the counterexample). -/
theorem claim_C2_amended (items : List Artifact) (nm q : String)
    (sc : Option Score) (hsc : intScore sc = none) :
    json_to_pdf.calculate_section_total_score
        (items ++ [{ name := some nm, checks := none }])
      = json_to_pdf.calculate_section_total_score items
    ∧ json_to_pdf.get_highest_score_in_section
        (items ++ [{ name := some nm, checks := none }])
      = json_to_pdf.get_highest_score_in_section items
    ∧ json_to_pdf.calculate_section_total_score
        (items ++
          [{ name := some nm,
             checks := some (ChecksRepr.list [{ name := some q, score := sc }]) }])
      = json_to_pdf.calculate_section_total_score items
    ∧ json_to_pdf.get_highest_score_in_section
        (items ++
          [{ name := some nm,
             checks := some (ChecksRepr.list [{ name := some q, score := sc }]) }])
      = json_to_pdf.get_highest_score_in_section items
    ∧ (∀ cs : List Check,
        json_to_pdf.calculate_total_risk
          (ChecksRepr.list (cs ++ [{ name := some q, score := sc }]))
        = json_to_pdf.calculate_total_risk (ChecksRepr.list cs)) := by
  have ha1 : scoresOf
      (({ name := some nm, checks := none } : Artifact).checks.getD
        (ChecksRepr.list [])) = [] := rfl
  have hb1 : artifactScores { name := some nm, checks := none } = [] := rfl
  have ha2 : scoresOf
      (({ name := some nm,
          checks := some (ChecksRepr.list [{ name := some q, score := sc }]) } :
        Artifact).checks.getD (ChecksRepr.list [])) = [] := by
    simp [scoresOf, hsc]
  have hb2 : artifactScores
      { name := some nm,
        checks := some (ChecksRepr.list [{ name := some q, score := sc }]) }
      = [] := by
    simp [artifactScores, scoresOf, hsc]
  refine ⟨?_, ?_, ?_, ?_, ?_⟩
  · exact total_snoc_inert items _ ha1
  · exact highest_snoc_inert items _ hb1
  · exact total_snoc_inert items _ ha2
  · exact highest_snoc_inert items _ hb2
  · intro cs
    unfold json_to_pdf.calculate_total_risk
    rw [show scoresOf (ChecksRepr.list (cs ++ [{ name := some q, score := sc }]))
        = (cs ++ [({ name := some q, score := sc } : Check)]).filterMap
          (fun c => intScore c.score) from rfl]
    rw [List.filterMap_append]
    rw [show List.filterMap (fun c => intScore c.score)
        [({ name := some q, score := sc } : Check)] = [] from by simp [hsc]]
    simp [scoresOf]

/-- Witness for the amended C2: a well-formed section totalling 7 keeps
total 7 after an artifact with no checks key is appended. -/
theorem claim_C2_witness :
    json_to_pdf.calculate_section_total_score
      (exGoodSection ++ [{ name := some "Broken", checks := none }]) = 7
    ∧ json_to_pdf.calculate_section_total_score exGoodSection = 7 := by
  have h := claim_C2_amended exGoodSection "Broken" "Q" (some Score.nonNum) rfl
  exact ⟨h.1.trans (by decide), by decide⟩

/-- C4 counterexample: when no section has any data the Final-Review summary
collects no section entries, and the Streamlit cumulative risk score is then
computed as 1, not 0. -/
theorem claim_C4_counterexample :
    streamlit_app.st_section_scores_list [[], [], [], []] = some []
    ∧ streamlit_app.cumulative_risk_score [] = 1
    ∧ streamlit_app.cumulative_risk_score [] ≠ 0 :=
  ⟨rfl, rfl, by decide⟩

/-- C4 amended: in the PDF generator the cumulative score equals the maximum
of the four sections' highest values and is 0 when no section has data; the
Streamlit summary instead yields 1 in the no-data case (see the
counterexample). -/
theorem claim_C4_amended (d : json_to_pdf.ReviewData) :
    json_to_pdf.cumulative_score (json_to_pdf.calculate_section_totals d)
      = max (max (max
          (json_to_pdf.section_totals_one d.third_party_software).highest
          (json_to_pdf.section_totals_one d.source_code).highest)
          (json_to_pdf.section_totals_one d.datasets_user_files).highest)
          (json_to_pdf.section_totals_one d.models).highest
    ∧ (d.third_party_software = [] → d.source_code = [] →
       d.datasets_user_files = [] → d.models = [] →
       json_to_pdf.cumulative_score (json_to_pdf.calculate_section_totals d)
         = 0) := by
  constructor
  · rfl
  · intro h1 h2 h3 h4
    cases d with
    | mk tp sc2 du mo =>
      have e1 : tp = [] := h1
      have e2 : sc2 = [] := h2
      have e3 : du = [] := h3
      have e4 : mo = [] := h4
      subst e1
      subst e2
      subst e3
      subst e4
      rfl

/-- Witness for the amended C4: the all-empty review document has cumulative
score 0 in the PDF generator. -/
theorem claim_C4_witness :
    json_to_pdf.cumulative_score (json_to_pdf.calculate_section_totals
      { third_party_software := [], source_code := [],
        datasets_user_files := [], models := [] }) = 0 :=
  (claim_C4_amended
    { third_party_software := [], source_code := [],
      datasets_user_files := [], models := [] }).2 rfl rfl rfl rfl

lemma item_has_high_score_eq (it : Artifact) (s : Int) :
    json_to_pdf.item_has_high_score it s = decide (s ∈ artifactScores it) := by
  unfold json_to_pdf.item_has_high_score
  exact any_eq_decide_mem (artifactScores it) s

/-- C8: for a non-empty section, the contributing artifact names are exactly
the display names of those artifacts containing at least one check whose
numeric score equals the section's highest score, in artifact order. -/
theorem claim_C8_contributing (items : List Artifact) (h : items ≠ []) :
    (json_to_pdf.section_totals_one items).artifacts
      = (items.filter (fun it =>
          decide (json_to_pdf.get_highest_score_in_section items
            ∈ artifactScores it))).map json_to_pdf.artifact_display_name := by
  obtain ⟨a, t, rfl⟩ := exists_cons_of_ne_nil items h
  rw [section_artifacts_cons]
  have hfun : (fun it => if json_to_pdf.item_has_high_score it
        (json_to_pdf.get_highest_score_in_section (a :: t)) then
        some (json_to_pdf.artifact_display_name it)
      else none)
      = (fun it => if decide (json_to_pdf.get_highest_score_in_section (a :: t)
            ∈ artifactScores it) then
          some (json_to_pdf.artifact_display_name it)
        else none) := by
    funext it
    rw [item_has_high_score_eq]
  rw [hfun]
  exact filterMap_ite_eq_map_filter _ _ _

/-- Witness for C8, the specification's P7 scenario: three artifacts scoring
3, 5 and 5 on one question contribute exactly the two artifacts scoring 5. -/
theorem claim_C8_witness :
    (json_to_pdf.section_totals_one exThreeFiveFive).artifacts = ["B", "C"] := by
  have h := claim_C8_contributing exThreeFiveFive (by decide)
  exact h.trans (by decide)

lemma filterMap_eq_nil_of_all_none {α β : Type} (f : α → Option β)
    (l : List α) (h : ∀ a ∈ l, f a = none) : l.filterMap f = [] := by
  induction l with
  | nil => rfl
  | cons a t ih =>
    rw [List.filterMap_cons, h a (List.mem_cons_self _ _)]
    exact ih (fun x hx => h x (List.mem_cons_of_mem _ hx))

lemma foldl_foldChecks_all_inert (items : List Artifact)
    (m : List (String × Int)) (h : ∀ a ∈ items, artifactScores a = []) :
    items.foldl (fun acc it =>
      json_to_pdf.foldChecks acc (it.checks.getD (ChecksRepr.list []))) m = m := by
  induction items generalizing m with
  | nil => rfl
  | cons a t ih =>
    have ha : scoresOf (a.checks.getD (ChecksRepr.list [])) = [] :=
      h a (List.mem_cons_self _ _)
    have ht : ∀ x ∈ t, artifactScores x = [] :=
      fun x hx => h x (List.mem_cons_of_mem _ hx)
    calc (a :: t).foldl (fun acc it =>
          json_to_pdf.foldChecks acc (it.checks.getD (ChecksRepr.list []))) m
        = t.foldl (fun acc it =>
            json_to_pdf.foldChecks acc (it.checks.getD (ChecksRepr.list [])))
            (json_to_pdf.foldChecks m (a.checks.getD (ChecksRepr.list []))) := rfl
      _ = t.foldl (fun acc it =>
            json_to_pdf.foldChecks acc (it.checks.getD (ChecksRepr.list []))) m := by
            rw [foldChecks_inert m _ ha]
      _ = m := ih m ht

lemma foldl_max_all_inert (items : List Artifact) (mx : Int)
    (h : ∀ a ∈ items, artifactScores a = []) :
    items.foldl (fun acc it => (artifactScores it).foldl max acc) mx = mx := by
  induction items generalizing mx with
  | nil => rfl
  | cons a t ih =>
    have ha : artifactScores a = [] := h a (List.mem_cons_self _ _)
    have ht : ∀ x ∈ t, artifactScores x = [] :=
      fun x hx => h x (List.mem_cons_of_mem _ hx)
    calc (a :: t).foldl (fun acc it => (artifactScores it).foldl max acc) mx
        = t.foldl (fun acc it => (artifactScores it).foldl max acc)
            ((artifactScores a).foldl max mx) := rfl
      _ = t.foldl (fun acc it => (artifactScores it).foldl max acc) mx := by
            rw [ha, List.foldl_nil]
      _ = mx := ih mx ht

/-- C10: a non-empty section none of whose checks carries a numeric score
gets highest_score 0 and hence risk category Unknown — a value outside the
specification's enumerated set — while total_score is 0 and pass_fail is
PASS (and no artifact is listed as contributing). -/
theorem claim_C10_unknown_category (items : List Artifact) (h1 : items ≠ [])
    (h2 : ∀ a ∈ items, artifactScores a = []) :
    json_to_pdf.section_totals_one items
      = { total := 0, highest := 0, category := "Unknown",
          count := items.length, pass_fail := "PASS", artifacts := [] }
    ∧ "Unknown" ∉ ["No Risk", "Low Risk", "Medium Risk", "High Risk",
        "Critical Risk", "No Data"] := by
  refine ⟨?_, by decide⟩
  obtain ⟨a, t, rfl⟩ := exists_cons_of_ne_nil items h1
  have htot : json_to_pdf.calculate_section_total_score (a :: t) = 0 := by
    have hf := foldl_foldChecks_all_inert (a :: t) [] h2
    calc json_to_pdf.calculate_section_total_score (a :: t)
        = (((a :: t).foldl (fun m it =>
            json_to_pdf.foldChecks m (it.checks.getD (ChecksRepr.list [])))
            []).map Prod.snd).sum := rfl
      _ = (([] : List (String × Int)).map Prod.snd).sum := by rw [hf]
      _ = 0 := rfl
  have hhigh : json_to_pdf.get_highest_score_in_section (a :: t) = 0 := by
    have hf := foldl_max_all_inert (a :: t) 0 h2
    calc json_to_pdf.get_highest_score_in_section (a :: t)
        = (a :: t).foldl (fun mx it => (artifactScores it).foldl max mx) 0 := rfl
      _ = 0 := hf
  have hart : (a :: t).filterMap (fun it =>
      if json_to_pdf.item_has_high_score it
          (json_to_pdf.get_highest_score_in_section (a :: t)) then
        some (json_to_pdf.artifact_display_name it)
      else none) = [] := by
    apply filterMap_eq_nil_of_all_none
    intro it hit
    rw [show json_to_pdf.item_has_high_score it
        (json_to_pdf.get_highest_score_in_section (a :: t)) = false from by
      unfold json_to_pdf.item_has_high_score
      rw [h2 it hit]
      rfl]
    rfl
  rw [section_totals_one_cons, hart, htot, hhigh]
  rfl

/-- Witness for C10: a single artifact whose two checks miss their score or
hold a non-numeric one yields total 0, highest 0, category Unknown and
PASS. -/
theorem claim_C10_witness :
    json_to_pdf.section_totals_one exNoNumeric
      = { total := 0, highest := 0, category := "Unknown", count := 1,
          pass_fail := "PASS", artifacts := [] } :=
  (claim_C10_unknown_category exNoNumeric (by decide) (by decide)).1
